import Mathlib

/-!
Verification of the bird-records HTTP API (`main.go`).

The program keeps a package-level slice `birds`, a `Store` interface with a
single SQL-backed implementation `dbStore`, and three handlers:
`handler` (GET /hello), `getBirdHandler` (GET /bird) and
`createBirdHandler` (POST /bird). In the source, both bird handlers operate
on the package-level slice directly; every call into the `store` variable is
commented out. We embed the handlers as explicit state transformers over the
package-level state, the JSON marshaling of bird lists at the string level
(matching Go's `encoding/json` output for `[]Bird`), and `dbStore.GetBirds`
as a function of the abstract outcome of its query and row scans.
-/

/-- The `Bird` record of `main.go`: `Species` and `Description`, with JSON
field tags `species` and `description`. -/
structure Bird where
  species : String
  description : String
  deriving DecidableEq

/-- The seed record `{"Chimni", "Found in India"}` that `getBirdHandler`
assigns to the package-level list on every call. -/
def seedBird : Bird := ⟨"Chimni", "Found in India"⟩

/-- Lower-case hex digit, used for `\u00XX` escapes. -/
def hexDigit (n : Nat) : Char :=
  if n < 10 then Char.ofNat (48 + n) else Char.ofNat (87 + n)

/-- Go `encoding/json` escaping of one character inside a string literal:
quote, backslash, newline, carriage return and tab get two-character
escapes; other control characters get `\u00XX`; with the default HTML
escaping, `<`, `>` and `&` become `<`, `>`, `&`; the line
separators U+2028 and U+2029 become ` ` and ` `. -/
def escapeChar (c : Char) : String :=
  if c = '"' then "\\\""
  else if c = '\\' then "\\\\"
  else if c = '\n' then "\\n"
  else if c = '\r' then "\\r"
  else if c = '\t' then "\\t"
  else if c = '<' then "\\u003c"
  else if c = '>' then "\\u003e"
  else if c = '&' then "\\u0026"
  else if c.toNat < 32 then
    "\\u00" ++ String.mk [hexDigit (c.toNat / 16), hexDigit (c.toNat % 16)]
  else if c.toNat = 8232 then "\\u2028"
  else if c.toNat = 8233 then "\\u2029"
  else String.mk [c]

/-- Go JSON escaping of a whole string. -/
def escapeString (s : String) : String :=
  String.join (s.data.map escapeChar)

/-- A JSON string literal: the escaped text in double quotes. -/
def renderString (s : String) : String :=
  "\"" ++ escapeString s ++ "\""

/-- `json.Marshal` output for a single `Bird` value: an object with the
tagged keys `species` and `description`, in declaration order. -/
def renderBird (b : Bird) : String :=
  "\x7b\"species\":" ++ renderString b.species ++
    ",\"description\":" ++ renderString b.description ++ "\x7d"

/-- `json.Marshal` applied to a (non-nil) `[]Bird` value, as in
`getBirdHandler`. On a slice of structs of strings, Go's marshaler never
returns an error, so the embedding is total and always `Except.ok`; the
`Except` return type mirrors the `(bytes, err)` pair of the call site. -/
def jsonMarshalBirds (bs : List Bird) : Except String String :=
  Except.ok ("[" ++ String.intercalate "," (bs.map renderBird) ++ "]")

/-- The observable parts of an HTTP response the handlers produce: the
status code (200 when a handler only writes the body), the body bytes, and
the redirect target when `http.Redirect` was called. -/
structure Response where
  status : Nat
  body : String
  location : Option String
  deriving DecidableEq

/-- The package-level mutable state of `main.go`: the slice `birds`, and
the set of records held by whatever `Store` was installed via `InitStore`
(modelled as the list of birds the installed store contains). In the
source, the handlers never read or write the `store` variable: the
`store.GetBirds()` and `store.CreateBird(&bird)` calls are commented out. -/
structure AppState where
  birds : List Bird
  storeBirds : List Bird
  deriving DecidableEq

/-- `handler` (GET /hello): `fmt.Fprintf(w, "Hello World!")`, which writes
the body with an implicit 200 status and touches no state. -/
def handler (s : AppState) : Response × AppState :=
  (⟨200, "Hello World!", none⟩, s)

/-- `getBirdHandler` with the marshaling step abstracted, so that the
error branch of the source (`w.WriteHeader(http.StatusInternalServerError)`)
is representable: assign `birds = []Bird{{"Chimni", "Found in India"}}`,
marshal the current list, answer 500 on a marshal error and otherwise write
the bytes with an implicit 200. -/
def getBirdHandlerWith (marshal : List Bird → Except String String)
    (s : AppState) : Response × AppState :=
  let s1 : AppState := { s with birds := [seedBird] }
  match marshal s1.birds with
  | Except.error _ => (⟨500, "", none⟩, s1)
  | Except.ok bytes => (⟨200, bytes, none⟩, s1)

/-- `getBirdHandler` (GET /bird) as in the source, with the real marshaler. -/
def getBirdHandler (s : AppState) : Response × AppState :=
  getBirdHandlerWith jsonMarshalBirds s

/-- `r.Form.Get(key)`: the first value recorded for the key, or the empty
string when the key is absent from the parsed form. -/
def formGet (form : List (String × String)) (key : String) : String :=
  match form.find? (fun kv => kv.1 == key) with
  | some kv => kv.2
  | none => ""

/-- `createBirdHandler` (POST /bird). The outcome of `r.ParseForm()` is the
input: `none` models a parse error (answer 500, state untouched), `some
form` the parsed key/value pairs. On success the handler builds a `Bird`
from the `species` and `description` form values, appends it to the
package-level `birds` slice (the `store.CreateBird` call is commented out),
and redirects to `/assets/` with status 302 (`http.StatusFound`; for a POST
request `http.Redirect` writes no body). -/
def createBirdHandler (parsedForm : Option (List (String × String)))
    (s : AppState) : Response × AppState :=
  match parsedForm with
  | none => (⟨500, "", none⟩, s)
  | some form =>
      let bird : Bird := ⟨formGet form "species", formGet form "description"⟩
      (⟨302, "", some "/assets/"⟩, { s with birds := s.birds ++ [bird] })

/-- The `for rows.Next()` loop of `dbStore.GetBirds`: each element of
`rows` is the scan outcome of one row. A scan error returns `(nil, err)`
at once, discarding the accumulator; otherwise the scanned bird is appended
and iteration continues; an exhausted cursor returns `(birds, nil)`. -/
def dbGetBirdsLoop :
    List (Except String Bird) → List Bird → Option (List Bird) × Option String
  | [], acc => (some acc, none)
  | Except.error e :: _, _ => (none, some e)
  | Except.ok b :: rest, acc => dbGetBirdsLoop rest (acc ++ [b])

/-- `dbStore.GetBirds` over the abstract outcome of
`store.db.Query("SELECT species, description from birds")`: a query error
gives `(nil, err)`; otherwise the row cursor is drained by the loop,
starting from the `[]*Bird{}` empty (non-nil) slice. The Go pair
`([]*Bird, error)` is modelled with `none` for Go's `nil`. -/
def dbGetBirds (queryResult : Except String (List (Except String Bird))) :
    Option (List Bird) × Option String :=
  match queryResult with
  | Except.error e => (none, some e)
  | Except.ok rows => dbGetBirdsLoop rows []

/-- The external relational engine behind `dbStore` (spec section 6: one
table `birds` with columns `species`, `description`): the table is the list
of inserted rows, and `dbStore.CreateBird`'s parameterized
`INSERT INTO birds(species, description)` adds one row. -/
def dbInsert (table : List Bird) (b : Bird) : List Bird :=
  table ++ [b]

/-- The external relational engine answering `dbStore.GetBirds`'s SELECT:
every stored row comes back and scans successfully into a `Bird`. -/
def dbSelectRows (table : List Bird) : List (Except String Bird) :=
  table.map Except.ok

/-- Modelled from the spec: the in-memory Store variant (spec section 4.2)
has no implementation under `src/` — only the `Store` interface and the
package-level `birds` slice exist there. Per the spec, its `CreateBird`
appends to a process-lifetime ordered list and never fails. -/
def memCreateBird (s : List Bird) (b : Bird) : List Bird × Option String :=
  (s ++ [b], none)

/-- Modelled from the spec: `GetBirds` of the in-memory variant returns
the current ordered sequence and never an error. -/
def memGetBirds (s : List Bird) : List Bird × Option String :=
  (s, none)

/-- A JSON value, as far as bird records need: strings and objects. -/
inductive JsonValue where
  | str : String → JsonValue
  | obj : List (String × JsonValue) → JsonValue

/-- `json.Marshal` of one `Bird` at the structural level: the object with
the tagged keys `species` and `description`. -/
def birdMarshalJson (b : Bird) : JsonValue :=
  JsonValue.obj [("species", JsonValue.str b.species),
                 ("description", JsonValue.str b.description)]

/-- First value bound to a key in a JSON object. -/
def jsonLookup (fields : List (String × JsonValue)) (key : String) :
    Option JsonValue :=
  match fields.find? (fun kv => kv.1 == key) with
  | some kv => some kv.2
  | none => none

/-- One string field during `json.Unmarshal` into `Bird`: a present string
value is taken, a missing key leaves the zero value `""`, and a value of
any other shape is a decode error. -/
def jsonStringField (fields : List (String × JsonValue)) (key : String) :
    Option String :=
  match jsonLookup fields key with
  | some (JsonValue.str s) => some s
  | some _ => none
  | none => some ""

/-- `json.Unmarshal` of a JSON value into a `Bird`. -/
def birdUnmarshalJson : JsonValue → Option Bird
  | JsonValue.obj fields =>
      match jsonStringField fields "species",
            jsonStringField fields "description" with
      | some sp, some de => some ⟨sp, de⟩
      | _, _ => none
  | _ => none

/-- Draining a cursor whose rows all scan successfully collects exactly the
scanned birds after the accumulator, with no error. -/
theorem dbGetBirdsLoop_all_ok (l : List Bird) :
    ∀ acc, dbGetBirdsLoop (l.map Except.ok) acc = (some (acc ++ l), none) := by
  induction l with
  | nil => intro acc; simp [dbGetBirdsLoop]
  | cons b t ih => intro acc; simp [dbGetBirdsLoop, ih]

/-- If any row of the cursor carries a scan error, the loop returns a nil
list and a non-nil error, whatever was accumulated before. -/
theorem dbGetBirdsLoop_err (rows : List (Except String Bird)) :
    ∀ acc, (∃ e, Except.error e ∈ rows) →
      (dbGetBirdsLoop rows acc).1 = none ∧
        (dbGetBirdsLoop rows acc).2.isSome = true := by
  induction rows with
  | nil => intro acc h; rcases h with ⟨e, he⟩; cases he
  | cons r t ih =>
      intro acc h
      cases r with
      | error e => simp [dbGetBirdsLoop]
      | ok b =>
          rcases h with ⟨e, he⟩
          rcases List.mem_cons.mp he with h1 | h2
          · cases h1
          · exact ih (acc ++ [b]) ⟨e, h2⟩

/-- When the loop reports no error, it reports a non-nil list. -/
theorem dbGetBirdsLoop_ok_some (rows : List (Except String Bird)) :
    ∀ acc, (dbGetBirdsLoop rows acc).2 = none →
      ∃ l, (dbGetBirdsLoop rows acc).1 = some l := by
  induction rows with
  | nil => intro acc _; exact ⟨acc, rfl⟩
  | cons r t ih =>
      intro acc h
      cases r with
      | error e => simp [dbGetBirdsLoop] at h
      | ok b => exact ih (acc ++ [b]) h

/-- Folding `memCreateBird` over a list of birds appends them in order. -/
theorem memCreateBird_foldl (bs : List Bird) :
    ∀ acc, bs.foldl (fun st b => (memCreateBird st b).1) acc = acc ++ bs := by
  induction bs with
  | nil => intro acc; simp
  | cons b t ih =>
      intro acc
      simpa [memCreateBird] using ih (acc ++ [b])

/-- Claim C1, counterexample to the claim as stated: after a successful
`POST /bird` with form `species=Crow&description=Black+bird` on a state
whose installed Store holds no records, the Store still holds no records —
the handler does not persist the Bird via the Store (the
`store.CreateBird(&bird)` call is commented out in the source). -/
theorem createBird_not_via_store :
    Bird.mk "Crow" "Black bird" ∉
      (createBirdHandler
        (some [("species", "Crow"), ("description", "Black bird")])
        ⟨[], []⟩).2.storeBirds := by
  decide

/-- Claim C1 (amended): for every `POST /bird` request whose form body
parses successfully, the handler constructs a Bird whose species and
description equal the corresponding form values (absent fields become empty
strings, as `formGet` returns `""`), appends it to the package-level
in-memory bird list — the Store is not invoked — and responds with a 302
redirect to `/assets/`. -/
theorem createBird_appends_and_redirects
    (form : List (String × String)) (s : AppState) :
    createBirdHandler (some form) s =
      (⟨302, "", some "/assets/"⟩,
       { s with birds :=
          s.birds ++ [⟨formGet form "species", formGet form "description"⟩] }) :=
  rfl

/-- Claim C2: every `GET /bird` first overwrites the in-memory list with
exactly the one seeded record, then serializes the current list and writes
it with status 200; and with any marshaler that fails on that list, the
handler would answer 500 instead. -/
theorem getBird_seeds_and_serializes (s : AppState) :
    ((getBirdHandler s).2.birds = [seedBird] ∧
      (getBirdHandler s).1.status = 200 ∧
      jsonMarshalBirds (getBirdHandler s).2.birds =
        Except.ok (getBirdHandler s).1.body) ∧
    ∀ (marshal : List Bird → Except String String) (e : String),
      marshal [seedBird] = Except.error e →
        (getBirdHandlerWith marshal s).1.status = 500 := by
  refine ⟨⟨rfl, rfl, rfl⟩, ?_⟩
  intro marshal e h
  simp [getBirdHandlerWith, h]

/-- Claim C2, witness: on the empty initial state, the real handler seeds
the list, and a marshaler failing on the seeded list yields status 500. -/
theorem getBird_seeds_and_serializes_witness :
    (getBirdHandler ⟨[], []⟩).2.birds = [seedBird] ∧
    (getBirdHandlerWith (fun _ => Except.error "boom") ⟨[], []⟩).1.status
      = 500 :=
  ⟨(getBird_seeds_and_serializes ⟨[], []⟩).1.1,
   (getBird_seeds_and_serializes ⟨[], []⟩).2
      (fun _ => Except.error "boom") "boom" rfl⟩

/-- Claim C3: for the in-memory Store variant, after
`CreateBird({"Crow", "Black bird"})` a subsequent `GetBirds()` contains
that exact record, and for every sequence of `CreateBird` calls from the
empty store, `GetBirds` returns the records in insertion order. -/
theorem memStore_create_then_get (s : List Bird) :
    Bird.mk "Crow" "Black bird" ∈
      (memGetBirds (memCreateBird s (Bird.mk "Crow" "Black bird")).1).1 ∧
    ∀ bs : List Bird,
      (memGetBirds (bs.foldl (fun st b => (memCreateBird st b).1) [])).1 = bs := by
  constructor
  · simp [memGetBirds, memCreateBird]
  · intro bs; simp [memGetBirds, memCreateBird_foldl]

/-- Claim C4: `dbStore.GetBirds` on a query failure returns `(nil, err)`,
and on any mid-iteration row-scan error returns a nil list together with a
non-nil error — never a partial list of the rows scanned so far. -/
theorem dbGetBirds_aborts_on_error (e : String)
    (rows : List (Except String Bird)) :
    dbGetBirds (Except.error e) = (none, some e) ∧
    ((∃ e2, Except.error e2 ∈ rows) →
      (dbGetBirds (Except.ok rows)).1 = none ∧
        (dbGetBirds (Except.ok rows)).2.isSome = true) := by
  refine ⟨rfl, ?_⟩
  intro h
  exact dbGetBirdsLoop_err rows [] h

/-- Claim C4, witness: a failing query, and a cursor whose second row fails
to scan after one good row, both yield a nil list and a present error. -/
theorem dbGetBirds_aborts_on_error_witness :
    dbGetBirds (Except.error "no such table") = (none, some "no such table") ∧
    (dbGetBirds (Except.ok
        [Except.ok (Bird.mk "Crow" "Black bird"),
         Except.error "scan failure"])).1 = none ∧
    (dbGetBirds (Except.ok
        [Except.ok (Bird.mk "Crow" "Black bird"),
         Except.error "scan failure"])).2.isSome = true :=
  ⟨(dbGetBirds_aborts_on_error "no such table" []).1,
   (dbGetBirds_aborts_on_error "no such table"
      [Except.ok (Bird.mk "Crow" "Black bird"),
       Except.error "scan failure"]).2
     ⟨"scan failure", List.Mem.tail _ (List.Mem.head _)⟩⟩

/-- Claim C5: a `POST /bird` whose form body fails to parse answers status
500 with no redirect and leaves the whole state — both the package-level
bird list and the Store — unchanged. -/
theorem createBird_parse_failure (s : AppState) :
    createBirdHandler none s = (⟨500, "", none⟩, s) :=
  rfl

/-- Claim C6: `GetBirds` with no stored records returns the empty sequence
and no error (for `dbStore`, the query succeeding with zero rows; likewise
for the in-memory variant on the empty list); and whenever `dbGetBirds`
reports no error, the returned sequence is present, never Go's nil. -/
theorem getBirds_empty_ok :
    dbGetBirds (Except.ok []) = (some [], none) ∧
    memGetBirds [] = ([], none) ∧
    ∀ q, (dbGetBirds q).2 = none → ∃ l, (dbGetBirds q).1 = some l := by
  refine ⟨rfl, rfl, ?_⟩
  intro q h
  cases q with
  | error e => simp [dbGetBirds] at h
  | ok rows => exact dbGetBirdsLoop_ok_some rows [] h

/-- Claim C6, witness: the empty successful query returns a present (empty)
sequence. -/
theorem getBirds_empty_ok_witness :
    ∃ l, (dbGetBirds (Except.ok [])).1 = some l :=
  getBirds_empty_ok.2.2 (Except.ok []) rfl

/-- Claim C7: round-trip through the store and JSON — inserting any Bird
`b` into any table state and then running `dbStore.GetBirds` succeeds and
yields a sequence containing `b`, and unmarshaling the JSON marshaling of
`b` gives back exactly `b`, species and description included (empty strings
too, since the equality is over all of `Bird`). -/
theorem createBird_getBirds_roundtrip (table : List Bird) (b : Bird) :
    dbGetBirds (Except.ok (dbSelectRows (dbInsert table b))) =
      (some (dbInsert table b), none) ∧
    b ∈ dbInsert table b ∧
    birdUnmarshalJson (birdMarshalJson b) = some b := by
  refine ⟨?_, ?_, rfl⟩
  · simp [dbGetBirds, dbSelectRows, dbGetBirdsLoop_all_ok]
  · simp [dbInsert]

/-- Claim C8: `GET /hello` answers status 200 with body exactly
`Hello World!`, for every state. -/
theorem hello_ok (s : AppState) :
    (handler s).1 = ⟨200, "Hello World!", none⟩ :=
  rfl

/-- Claim C9: the three handlers never consult the installed Store — two
states that agree on the package-level bird list and differ only in the
Store's contents produce identical responses and identical resulting bird
lists on every request. -/
theorem handlers_independent_of_store (s1 s2 : AppState)
    (form : Option (List (String × String))) (h : s1.birds = s2.birds) :
    (handler s1).1 = (handler s2).1 ∧
    (getBirdHandler s1).1 = (getBirdHandler s2).1 ∧
    (getBirdHandler s1).2.birds = (getBirdHandler s2).2.birds ∧
    (createBirdHandler form s1).1 = (createBirdHandler form s2).1 ∧
    (createBirdHandler form s1).2.birds = (createBirdHandler form s2).2.birds := by
  refine ⟨rfl, rfl, rfl, ?_, ?_⟩ <;> cases form <;> simp [createBirdHandler, h]

/-- Claim C9, witness: two states differing only in the Store contents give
the same bird list after a `POST /bird`. -/
theorem handlers_independent_of_store_witness :
    (createBirdHandler (some [("species", "Crow")]) ⟨[], []⟩).2.birds =
      (createBirdHandler (some [("species", "Crow")]) ⟨[], [seedBird]⟩).2.birds :=
  (handlers_independent_of_store ⟨[], []⟩ ⟨[], [seedBird]⟩
    (some [("species", "Crow")]) rfl).2.2.2.2

/-- Claim C10: the 500 branch of `getBirdHandler` is unreachable — the
marshaler never fails on the seeded list, so every `GET /bird` response is
exactly status 200 with body the JSON array of the one seeded record. -/
theorem getBird_always_200 (s : AppState) :
    (getBirdHandler s).1 =
      ⟨200,
       "[\x7b\"species\":\"Chimni\",\"description\":\"Found in India\"\x7d]",
       none⟩ :=
  rfl
